import Mathlib

/-!
Verification of the DigestBot pipeline (fetch → extract → summarize → rate).

The development shallowly embeds the Python sources:
  * `Source/Summarizer.py` — word counting and dynamic summary-length budgeting
    (`_get_summary_lengths`, `run`);
  * `src/newsbot/ArticleEvaluator.py` — prompt building, model-output parsing
    and the rating regex search (`evaluate`);
  * `src/newsbot/Scraper.py` — HTML fetch fallback, script/style removal and
    visible-text collapse (`_fetch_html`, `_extract_text`, `_extract_title`,
    `run`);
  * `Source/device_config.py` — the lazily cached device selection
    (`DeviceManager`);
  * `Run.py` — the entry-point control flow.

Python machine floats `0.4` and `0.6` are modelled by the exact rationals
`2/5` and `3/5`: at every word count the claims touch the float and the
rational computation agree, and `int(...)` on a nonnegative value is the
floor.  Third-party collaborators (HTTP, BeautifulSoup/readability parsing,
the two language models) are explicit oracle parameters, so that the
repository's own control flow is concrete while the collaborators stay
universally quantified.
-/

namespace DigestBot

/-! ## Word counting: Python `len(text.split())` -/

/-- One step of Python `str.split()` word counting: `inWord` records whether
the previous character was a non-whitespace character (so a new word starts
exactly at a non-whitespace character that follows whitespace or the start
of the string). -/
def countWordsAux : Bool → List Char → Nat
  | _, [] => 0
  | inWord, c :: cs =>
    if c.isWhitespace then countWordsAux false cs
    else (if inWord then 0 else 1) + countWordsAux true cs

/-- `len(text.split())`: the number of maximal whitespace-free runs. -/
def wordCount (text : String) : Nat :=
  countWordsAux false text.data

/-- Python `int(...)` applied to a rational: truncation toward zero. -/
def pyInt (q : ℚ) : ℤ :=
  if 0 ≤ q then ⌊q⌋ else ⌈q⌉

/-! ## `Summarizer._get_summary_lengths` (Source/Summarizer.py, lines 59–87) -/

/-- The body of `_get_summary_lengths` once `word_count = len(text.split())`
has been computed:
  `dynamic_max = int(word_count * ratio)`;
  `max_length = min(dynamic_max, max_cap)`;
  `min_length = min(min_floor, max_length - 1) if max_length > min_floor
                else int(0.6 * max_length)`. -/
def summaryLengthsOfCount (word_count : ℕ) (max_cap min_floor : ℤ) (ratio : ℚ) :
    ℤ × ℤ :=
  let dynamic_max : ℤ := pyInt ((word_count : ℚ) * ratio)
  let max_length : ℤ := min dynamic_max max_cap
  let min_length : ℤ :=
    if max_length > min_floor then min min_floor (max_length - 1)
    else pyInt ((3 / 5 : ℚ) * (max_length : ℚ))
  (max_length, min_length)

/-- `Summarizer._get_summary_lengths(text, max_cap, min_floor, ratio)`. -/
def get_summary_lengths (text : String) (max_cap min_floor : ℤ) (ratio : ℚ) :
    ℤ × ℤ :=
  summaryLengthsOfCount (wordCount text) max_cap min_floor ratio

/-- `_get_summary_lengths` at its default arguments
`max_cap=250, min_floor=30, ratio=0.4`. -/
def get_summary_lengths_default (text : String) : ℤ × ℤ :=
  get_summary_lengths text 250 30 (2 / 5)

/-- `Summarizer.run(content)`: computes the length bounds of `content` and
forwards them, unchecked, to `_summarize`.  The summarization model call is
the oracle `summarize`, a third-party inference collaborator. -/
def summarizerRun (summarize : String → ℤ → ℤ → String) (content : String) :
    String :=
  let p := get_summary_lengths_default content
  summarize content p.1 p.2

/-! ### Basic lemmas about the budgeter -/

lemma pyInt_of_nonneg {q : ℚ} (h : 0 ≤ q) : pyInt q = ⌊q⌋ := if_pos h

lemma countWordsAux_all_ws {l : List Char} (h : ∀ c ∈ l, c.isWhitespace) :
    ∀ b, countWordsAux b l = 0 := by
  induction l with
  | nil => intro b; rfl
  | cons c cs ih =>
    intro b
    have hc : c.isWhitespace = true := h c (List.mem_cons_self c cs)
    have hcs : ∀ x ∈ cs, x.isWhitespace := fun x hx => h x (List.mem_cons_of_mem c hx)
    simp [countWordsAux, hc, ih hcs]

/-- The first component returned by the budgeter, written as the spec writes
it: `min (floor (word_count * ratio)) max_cap` (for nonnegative ratio the
Python truncation is the floor). -/
lemma summaryLengths_fst (w : ℕ) (mc mf : ℤ) (r : ℚ) (hr : 0 ≤ r) :
    (summaryLengthsOfCount w mc mf r).1 = min ⌊(w : ℚ) * r⌋ mc := by
  have h0 : (0 : ℚ) ≤ (w : ℚ) * r := mul_nonneg (by positivity) hr
  simp [summaryLengthsOfCount, pyInt_of_nonneg h0]

lemma summaryLengths_fst_nonneg (w : ℕ) (mc mf : ℤ) (r : ℚ) (hr : 0 ≤ r)
    (hmc : 0 ≤ mc) : 0 ≤ (summaryLengthsOfCount w mc mf r).1 := by
  rw [summaryLengths_fst w mc mf r hr]
  have h0 : (0 : ℚ) ≤ (w : ℚ) * r := mul_nonneg (by positivity) hr
  exact le_min (Int.le_floor.mpr (by exact_mod_cast h0)) hmc

/-- In the short-input branch, `int(0.6 * max_length)` stays strictly below a
positive `max_length`. -/
lemma pyInt_three_fifths_lt {M : ℤ} (hM : 0 < M) :
    pyInt ((3 / 5 : ℚ) * (M : ℚ)) < M := by
  have hMq : (0 : ℚ) < (M : ℚ) := by exact_mod_cast hM
  have h0 : (0 : ℚ) ≤ (3 / 5 : ℚ) * (M : ℚ) := by positivity
  rw [pyInt_of_nonneg h0]
  refine Int.floor_lt.mpr ?_
  nlinarith

/-- C1: for every input text (any word count `w ≥ 0`), `ratio ∈ (0,1]` and
`max_cap > min_floor > 0`, `_get_summary_lengths` returns
`(max_length, min_length)` with `max_length ≤ max_cap`, and whenever
`max_length > 0` also `min_length < max_length` (in particular the short-input
branch `max_length ≤ min_floor` never yields `min_length ≥ max_length`). -/
theorem C1_get_summary_lengths_bounds (text : String) (max_cap min_floor : ℤ)
    (ratio : ℚ) (hr0 : 0 < ratio) (_hr1 : ratio ≤ 1) (_hmf : 0 < min_floor)
    (_hcap : min_floor < max_cap) :
    (get_summary_lengths text max_cap min_floor ratio).1 ≤ max_cap ∧
      (0 < (get_summary_lengths text max_cap min_floor ratio).1 →
        (get_summary_lengths text max_cap min_floor ratio).2 <
          (get_summary_lengths text max_cap min_floor ratio).1) := by
  set w := wordCount text with hw
  have hfst : (get_summary_lengths text max_cap min_floor ratio).1 =
      min ⌊(w : ℚ) * ratio⌋ max_cap := by
    rw [get_summary_lengths, summaryLengths_fst w _ _ _ (le_of_lt hr0)]
  constructor
  · rw [hfst]; exact min_le_right _ _
  · intro hpos
    rw [get_summary_lengths] at hpos ⊢
    rcases lt_or_le min_floor (summaryLengthsOfCount w max_cap min_floor ratio).1
      with hbig | hsmall
    · -- long-input branch: min_length = min min_floor (max_length - 1)
      have hsnd : (summaryLengthsOfCount w max_cap min_floor ratio).2 =
          min min_floor ((summaryLengthsOfCount w max_cap min_floor ratio).1 - 1) := by
        simp only [summaryLengthsOfCount] at hbig ⊢
        rw [if_pos hbig]
      rw [hsnd]
      calc min min_floor ((summaryLengthsOfCount w max_cap min_floor ratio).1 - 1)
          ≤ (summaryLengthsOfCount w max_cap min_floor ratio).1 - 1 := min_le_right _ _
        _ < (summaryLengthsOfCount w max_cap min_floor ratio).1 := by omega
    · -- short-input branch: min_length = int(0.6 * max_length)
      have hsnd : (summaryLengthsOfCount w max_cap min_floor ratio).2 =
          pyInt ((3 / 5 : ℚ) *
            ((summaryLengthsOfCount w max_cap min_floor ratio).1 : ℚ)) := by
        simp only [summaryLengthsOfCount] at hsmall ⊢
        rw [if_neg (by omega)]
      rw [hsnd]
      exact pyInt_three_fifths_lt hpos

/-- Witness for C1 at the concrete input `"one two three"`, `max_cap = 250`,
`min_floor = 30`, `ratio = 2/5`. -/
theorem C1_get_summary_lengths_bounds_witness :
    (get_summary_lengths "one two three" 250 30 (2 / 5)).1 ≤ 250 ∧
      (0 < (get_summary_lengths "one two three" 250 30 (2 / 5)).1 →
        (get_summary_lengths "one two three" 250 30 (2 / 5)).2 <
          (get_summary_lengths "one two three" 250 30 (2 / 5)).1) :=
  C1_get_summary_lengths_bounds "one two three" 250 30 (2 / 5)
    (by norm_num) (by norm_num) (by norm_num) (by norm_num)

/-- C3: the budgeter computes `max_length = min (floor (word_count * ratio))
max_cap`; with the default parameters a 100-word text yields `(40, 30)` and a
50-word text yields `(20, 12)`. -/
theorem C3_budget_formula_and_examples :
    (∀ (text : String) (mc mf : ℤ) (r : ℚ), 0 ≤ r →
        (get_summary_lengths text mc mf r).1 = min ⌊(wordCount text : ℚ) * r⌋ mc) ∧
      (∀ text : String, wordCount text = 100 →
        get_summary_lengths_default text = (40, 30)) ∧
      (∀ text : String, wordCount text = 50 →
        get_summary_lengths_default text = (20, 12)) := by
  refine ⟨fun text mc mf r hr => summaryLengths_fst _ _ _ _ hr, ?_, ?_⟩
  · intro text h
    rw [get_summary_lengths_default, get_summary_lengths, h]
    norm_num [summaryLengthsOfCount, pyInt]
  · intro text h
    rw [get_summary_lengths_default, get_summary_lengths, h]
    norm_num [summaryLengthsOfCount, pyInt]

set_option maxRecDepth 20000 in
/-- Witness for C3: a concrete 100-word text maps to `(40, 30)` and a concrete
50-word text maps to `(20, 12)`. -/
theorem C3_budget_formula_and_examples_witness :
    get_summary_lengths_default
        (String.intercalate " " (List.replicate 100 "w")) = (40, 30) ∧
      get_summary_lengths_default
        (String.intercalate " " (List.replicate 50 "w")) = (20, 12) :=
  ⟨C3_budget_formula_and_examples.2.1 _ (by decide),
    C3_budget_formula_and_examples.2.2 _ (by decide)⟩

/-- C10: an all-whitespace (or empty) text has word count 0 and the budgeter
returns the degenerate pair `(0, 0)`; `Summarizer.run` performs no emptiness
check of its own and forwards exactly these bounds to the summarization
call. -/
theorem C10_degenerate_bounds_forwarded :
    (∀ text : String, (∀ c ∈ text.data, c.isWhitespace) →
        get_summary_lengths_default text = (0, 0)) ∧
      (∀ (summarize : String → ℤ → ℤ → String) (content : String),
        summarizerRun summarize content =
          summarize content (get_summary_lengths_default content).1
            (get_summary_lengths_default content).2) := by
  constructor
  · intro text h
    have hwc : wordCount text = 0 := countWordsAux_all_ws h false
    rw [get_summary_lengths_default, get_summary_lengths, hwc]
    norm_num [summaryLengthsOfCount, pyInt]
  · intro summarize content
    rfl

/-- Witness for C10: the whitespace-only text `" \n\t "` gets bounds `(0, 0)`
and they are handed to the summarization oracle unchanged. -/
theorem C10_degenerate_bounds_forwarded_witness :
    get_summary_lengths_default " \n\t " = (0, 0) ∧
      summarizerRun (fun _ a b => toString (a + b)) " \n\t " =
        (fun _ a b => toString (a + b)) " \n\t "
          (get_summary_lengths_default " \n\t ").1
          (get_summary_lengths_default " \n\t ").2 :=
  ⟨C10_degenerate_bounds_forwarded.1 " \n\t " (by decide),
    C10_degenerate_bounds_forwarded.2 (fun _ a b => toString (a + b)) " \n\t "⟩

/-! ## The rating extractor (src/newsbot/ArticleEvaluator.py)

`evaluate` runs `re.search(r"\b(10|[1-9])\b", response)` over the model
output.  `searchRating` models Python's leftmost regex search: positions are
scanned left to right; at a position opening a word boundary the alternative
`10` is tried before `[1-9]`, and each alternative requires a word boundary
after its last character. -/

/-- A regex word character (`\w` over the ASCII inputs the claims use):
letter, digit or underscore. -/
def isWordChar (c : Char) : Bool :=
  c.isAlphanum || c = '_'

/-- Word boundary after a matched digit: end of input or a non-word
character. -/
def endBoundary : List Char → Bool
  | [] => true
  | c :: _ => !(isWordChar c)

/-- Numeric value of an ASCII digit character. -/
def digitVal (c : Char) : ℕ :=
  c.toNat - '0'.toNat

/-- Is `c` one of `1`–`9` (the `[1-9]` character class)? -/
def isNonzeroDigit (c : Char) : Bool :=
  '1'.toNat ≤ c.toNat && c.toNat ≤ '9'.toNat

/-- Does the rest of the input complete the alternative `10` (a `0` followed
by a word boundary), assuming the current character was `1`? -/
def matchTen : List Char → Bool
  | '0' :: rest2 => endBoundary rest2
  | _ => false

/-- Leftmost search for `\b(10|[1-9])\b`.  `prevW` says whether the character
before the current position is a word character (no boundary opens between two
word characters); at each boundary position the alternative `10` is tried
before `[1-9]`, exactly as Python alternation does. -/
def searchRating : Bool → List Char → Option ℕ
  | _, [] => none
  | prevW, c :: rest =>
    if prevW then searchRating (isWordChar c) rest
    else if c = '1' && matchTen rest then some 10
    else if isNonzeroDigit c && endBoundary rest then some (digitVal c)
    else searchRating (isWordChar c) rest

/-- `re.search(r"\b(10|[1-9])\b", s)`, returning the matched integer. -/
def findRating (s : String) : Option ℕ :=
  searchRating false s.data

/-- Python `str.strip()`: leading and trailing whitespace removed. -/
def pyStrip (s : String) : String :=
  String.mk (((s.data.dropWhile Char.isWhitespace).reverse.dropWhile
    Char.isWhitespace).reverse)

/-- One element of the text-generation pipeline's output list: a dict whose
`"generated_text"` / `"text"` keys may each be present or absent. -/
structure GenItem where
  generated_text : Option String
  text : Option String

/-- What `self.model(prompt, max_length=10, do_sample=False)` can do: raise,
return something that is not a (nonempty-checked) list, or return a list of
output dicts. -/
inductive ModelOutput where
  | raises
  | notAList
  | items (l : List GenItem)

/-- Python truthiness of an optional string (`None` and `""` are falsy). -/
def truthyStr : Option String → Bool
  | none => false
  | some s => !(s = "")

/-- Python `a or b` on the two field lookups. -/
def pyOrStr (a b : Option String) : Option String :=
  if truthyStr a then a else b

/-- `ArticleEvaluator._build_prompt(title, content, interest, user_type)`. -/
def build_prompt (title content interest user_type : String) : String :=
  "You are a senior news editor evaluating an article for a specific reader. \n"
    ++ "Rate the article strictly on a scale of 1 to 10 based on the following criteria:\n\n"
    ++ "- Clarity and relevance of the article\n"
    ++ "- The user's interest area\n"
    ++ "- The user's expertise level (Power User or Basic User)\n\n"
    ++ "Do NOT provide any explanation. Only output the rating as a single number (e.g., 7).\n\n"
    ++ "Guidelines:\n"
    ++ "- For a Power User, prioritize articles that are technical, in-depth, and impactful.\n"
    ++ "- For a Basic User, prioritize articles that are simple, clear, and essential for general awareness.\n\n"
    ++ "Title: " ++ pyStrip title ++ "\n\n"
    ++ "Article Content: " ++ pyStrip content ++ "\n\n"
    ++ "User Interest: " ++ pyStrip interest ++ "\n\n"
    ++ "User Type: " ++ pyStrip user_type ++ "\n"

/-- `ArticleEvaluator.evaluate(title, content, interest, user_type)`.  The
text-generation model is the oracle `model`; every failure path of the Python
`try`/`except` ends at `return None`. -/
def evaluate (model : String → ModelOutput)
    (title content interest user_type : String) : Option ℕ :=
  let prompt := build_prompt title content interest user_type
  match model prompt with
  | ModelOutput.raises => none
  | ModelOutput.notAList => none
  | ModelOutput.items [] => none
  | ModelOutput.items (o :: _) =>
    match pyOrStr o.generated_text o.text with
    | none => none
    | some s => if s = "" then none else findRating (pyStrip s)

/-- The claim's failure condition for `evaluate`: the model raised, its output
was empty or malformed, or the located generation carries no boundary-matched
number in `[1, 10]`. -/
def ratingFailure (out : ModelOutput) : Prop :=
  match out with
  | ModelOutput.items (o :: _) =>
    match pyOrStr o.generated_text o.text with
    | none => True
    | some s => s = "" ∨ findRating (pyStrip s) = none
  | _ => True

/-! ### Lemmas about the rating search -/

lemma searchRating_range :
    ∀ (l : List Char) (b : Bool) (r : ℕ), searchRating b l = some r →
      1 ≤ r ∧ r ≤ 10 := by
  intro l
  induction l with
  | nil => intro b r h; simp [searchRating] at h
  | cons c cs ih =>
    intro b r h
    rw [searchRating] at h
    split at h
    · exact ih _ _ h
    · split at h
      · -- matched the alternative `10`
        have : r = 10 := by simpa using h.symm
        omega
      · split at h
        · -- matched the alternative `[1-9]`
          rename_i hd
          have hdig : isNonzeroDigit c = true := ((Bool.and_eq_true _ _).mp hd).1
          have hrange : '1'.toNat ≤ c.toNat ∧ c.toNat ≤ '9'.toNat := by
            simpa [isNonzeroDigit] using hdig
          have hr : r = digitVal c := by simpa using h.symm
          have h0 : '0'.toNat = 48 := rfl
          have h1 : '1'.toNat = 49 := rfl
          have h9 : '9'.toNat = 57 := rfl
          subst hr
          simp only [digitVal]
          omega
        · exact ih _ _ h

lemma evaluate_range (model : String → ModelOutput)
    (title content interest user_type : String) (r : ℕ)
    (h : evaluate model title content interest user_type = some r) :
    1 ≤ r ∧ r ≤ 10 := by
  rw [evaluate] at h
  rcases hm : model (build_prompt title content interest user_type) with _ | _ | l
  · rw [hm] at h; simp at h
  · rw [hm] at h; simp at h
  · rcases l with _ | ⟨o, rest⟩
    · rw [hm] at h; simp at h
    · rw [hm] at h
      simp only [] at h
      rcases hg : pyOrStr o.generated_text o.text with _ | s
      · rw [hg] at h; simp at h
      · rw [hg] at h
        by_cases hs : s = ""
        · simp [hs] at h
        · simp only [hs, if_false] at h
          exact searchRating_range _ _ _ h

/-- C2: the rating search is word-boundary anchored.  `"Rating: 100"` (whose
only digits sit inside the non-boundary token `100`) produces no match; `"7"`
and `"the score is 7."` produce `7`; `"10"` produces `10`, not `1` (the
alternative `10` is tried first and `1` alone fails the trailing
boundary). -/
theorem C2_rating_regex_word_boundaries :
    findRating "Rating: 100" = none ∧ findRating "7" = some 7 ∧
      findRating "the score is 7." = some 7 ∧ findRating "10" = some 10 := by
  refine ⟨?_, ?_, ?_, ?_⟩ <;> decide

/-- C4: `evaluate` never throws and never fabricates a default: every returned
value is an integer in `[1, 10]`, and it returns the absent value `none`
exactly when the model raises, its output is empty or malformed, or the
located generation carries no boundary-matched number in `[1, 10]`. -/
theorem C4_evaluate_range_and_absence :
    (∀ (model : String → ModelOutput) (title content interest user_type : String)
        (r : ℕ), evaluate model title content interest user_type = some r →
          1 ≤ r ∧ r ≤ 10) ∧
      (∀ (model : String → ModelOutput) (title content interest user_type : String),
        evaluate model title content interest user_type = none ↔
          ratingFailure (model (build_prompt title content interest user_type))) := by
  constructor
  · exact fun model t c i u r h => evaluate_range model t c i u r h
  · intro model t c i u
    simp only [evaluate, ratingFailure]
    rcases model (build_prompt t c i u) with _ | _ | l
    · simp
    · simp
    · rcases l with _ | ⟨o, rest⟩
      · simp
      · rcases hg : pyOrStr o.generated_text o.text with _ | s
        · simp [hg]
        · by_cases hs : s = ""
          · subst hs; simp [hg]
          · simp [hg, hs]

/-- Witness for C4: a model answering `"7"` yields a rating in range, and a
raising model hits the absence characterization. -/
theorem C4_evaluate_range_and_absence_witness :
    (1 ≤ 7 ∧ 7 ≤ 10) ∧
      (evaluate (fun _ => ModelOutput.raises) "t" "c" "i" "u" = none ↔
        ratingFailure ((fun _ => ModelOutput.raises) (build_prompt "t" "c" "i" "u"))) :=
  ⟨C4_evaluate_range_and_absence.1
      (fun _ => ModelOutput.items [⟨some "7", none⟩]) "t" "c" "i" "u" 7 (by decide),
    C4_evaluate_range_and_absence.2 (fun _ => ModelOutput.raises) "t" "c" "i" "u"⟩

/-- C9: the model-output field lookup uses Python truthiness, not key
presence: a falsy `"generated_text"` value (absent or `""`) falls back to the
`"text"` field; when the fallback is also absent or empty the function
returns `none`; when the fallback holds a nonempty string the rating comes
from it.  An empty generated text therefore never produces a rating. -/
theorem C9_truthiness_fallback :
    (∀ b : Option String, pyOrStr (some "") b = b) ∧
      (∀ a b : Option String, truthyStr a = false → pyOrStr a b = b) ∧
      (∀ (model : String → ModelOutput) (t c i u : String) (o : GenItem)
          (rest : List GenItem),
        model (build_prompt t c i u) = ModelOutput.items (o :: rest) →
        truthyStr o.generated_text = false →
        (truthyStr o.text = false → evaluate model t c i u = none) ∧
          (∀ s : String, o.text = some s → s ≠ "" →
            evaluate model t c i u = findRating (pyStrip s))) := by
  refine ⟨fun b => rfl, fun a b ha => by simp [pyOrStr, ha], ?_⟩
  intro model t c i u o rest hm hg
  have hor : pyOrStr o.generated_text o.text = o.text := by simp [pyOrStr, hg]
  constructor
  · intro ht
    simp only [evaluate, hm, hor]
    rcases hcase : o.text with _ | s
    · rfl
    · have hs : s = "" := by
        rw [hcase] at ht
        simpa [truthyStr] using ht
      simp [hs]
  · intro s hs hne
    simp [evaluate, hm, hs, pyOrStr, hg, hne]

/-- Witness for C9: with `generated_text = ""` and `text = "3"` the rating is
read from the fallback field; with both fields empty the result is absent. -/
theorem C9_truthiness_fallback_witness :
    pyOrStr (some "") (some "3") = some "3" ∧
      evaluate (fun _ => ModelOutput.items [⟨some "", some ""⟩]) "t" "c" "i" "u" =
        none ∧
      evaluate (fun _ => ModelOutput.items [⟨some "", some "3"⟩]) "t" "c" "i" "u" =
        findRating (pyStrip "3") :=
  ⟨C9_truthiness_fallback.1 (some "3"),
    (C9_truthiness_fallback.2.2 (fun _ => ModelOutput.items [⟨some "", some ""⟩])
        "t" "c" "i" "u" ⟨some "", some ""⟩ [] rfl (by decide)).1 (by decide),
    (C9_truthiness_fallback.2.2 (fun _ => ModelOutput.items [⟨some "", some "3"⟩])
        "t" "c" "i" "u" ⟨some "", some "3"⟩ [] rfl (by decide)).2 "3" rfl
      (by decide)⟩

/-! ## The scraper (src/newsbot/Scraper.py)

The HTTP request and the BeautifulSoup/readability parses are third-party
collaborators, modelled as oracles; the repository's own logic — the fallback
to `""`, the `<script>`/`<style>` decomposition and the
`get_text(separator=" ", strip=True)` collapse — is concrete over a tree
model of parsed HTML. -/

/-- A parsed HTML node: a text node, or an element with a tag and children.
A parsed document is a `List Html` (its top-level nodes). -/
inductive Html where
  | text (s : String)
  | elem (tag : String) (children : List Html)

/-- `for tag in soup(["script", "style"]): tag.decompose()` — every element
whose tag is in `tags` is removed from the forest, at any depth. -/
def stripTagsList (tags : List String) : List Html → List Html
  | [] => []
  | Html.text s :: hs => Html.text s :: stripTagsList tags hs
  | Html.elem t cs :: hs =>
    if t ∈ tags then stripTagsList tags hs
    else Html.elem t (stripTagsList tags cs) :: stripTagsList tags hs

/-- The text nodes of a forest, in document order. -/
def textNodesList : List Html → List String
  | [] => []
  | Html.text s :: hs => s :: textNodesList hs
  | Html.elem _ cs :: hs => textNodesList cs ++ textNodesList hs

/-- `separator.join(parts)` as BeautifulSoup's `get_text` builds it. -/
def joinSep (sep : String) : List String → String
  | [] => ""
  | [s] => s
  | s :: rest => s ++ sep ++ joinSep sep rest

/-- `get_text(separator=sep, strip=True)` over a forest: each text node is
stripped, whitespace-only nodes are dropped, the rest are joined with the
separator. -/
def get_text (sep : String) (doc : List Html) : String :=
  joinSep sep (((textNodesList doc).map pyStrip).filter (fun s => !(s == "")))

/-- Modelled from the spec: the visible text nodes — those not lying under a
`<script>`/`<style>` element — in document order.  This is the spec's-words
counterpart of running `textNodesList` after `stripTagsList`. -/
def visibleTextsList (tags : List String) : List Html → List String
  | [] => []
  | Html.text s :: hs => s :: visibleTextsList tags hs
  | Html.elem t cs :: hs =>
    if t ∈ tags then visibleTextsList tags hs
    else visibleTextsList tags cs ++ visibleTextsList tags hs

/-- First element with the given tag, in document order (`soup.find(tag)`). -/
def findTagList (tag : String) : List Html → Option Html
  | [] => none
  | Html.text _ :: hs => findTagList tag hs
  | Html.elem t cs :: hs =>
    if t = tag then some (Html.elem t cs)
    else
      match findTagList tag cs with
      | some x => some x
      | none => findTagList tag hs

/-- `Scraper._extract_text(html)`: `Document(html).summary()` re-parsed by
BeautifulSoup is the oracle `readParse` (`none` models the libraries
raising); the repository's code then decomposes every `<script>`/`<style>`
element and collapses the rest with `get_text(separator=" ", strip=True)`;
any exception degrades to `""`. -/
def extract_text (readParse : String → Option (List Html)) (html : String) :
    String :=
  match readParse html with
  | none => ""
  | some doc => get_text " " (stripTagsList ["script", "style"] doc)

/-- `Scraper._extract_title(html)`: BeautifulSoup parsing is the oracle
`parse`; `soup.find("title")` then `get_text(strip=True)` (separator `""`),
with `""` when no `<title>` exists or the parse raises. -/
def extract_title (parse : String → Option (List Html)) (html : String) :
    String :=
  match parse html with
  | none => ""
  | some doc =>
    match findTagList "title" doc with
    | none => ""
    | some node =>
      match node with
      | Html.text s => pyStrip s
      | Html.elem _ cs => get_text "" cs

/-- What `requests.get(url, timeout=10)` followed by `raise_for_status()` can
do: deliver a body, or fail (network error or non-2xx status — both end in
the `except` branch). -/
inductive FetchOutcome where
  | ok (body : String)
  | requestError
deriving DecidableEq

/-- `Scraper._fetch_html()`: the response text on success, `""` on any
`RequestException`. -/
def fetch_html : FetchOutcome → String
  | FetchOutcome.ok body => body
  | FetchOutcome.requestError => ""

/-- The dictionary `{"title": ..., "content": ...}` returned by
`Scraper.run()`. -/
structure ScrapeResult where
  title : String
  content : String
deriving DecidableEq

/-- `Scraper.run()`: fetch, bail out to the empty article on falsy HTML, else
extract title and content independently. -/
def scraperRun (fetch : FetchOutcome)
    (parse readParse : String → Option (List Html)) : ScrapeResult :=
  let html := fetch_html fetch
  if html = "" then ⟨"", ""⟩
  else ⟨extract_title parse html, extract_text readParse html⟩

/-- The observable behaviour of the `Run.py` entry point: the lines printed
and whether the summarization and rating stages ran at all. -/
structure MainTrace where
  printed : List String
  summarizeCalled : Bool
  rateCalled : Bool
deriving DecidableEq

/-- `Run.py`'s `__main__` block: scrape, and only when the content is truthy
print the title, summarize (printing a truthy summary) and rate (printing a
present rating). -/
def mainRun (fetch : FetchOutcome) (parse readParse : String → Option (List Html))
    (summarize : String → ℤ → ℤ → String) (model : String → ModelOutput) :
    MainTrace :=
  let page := scraperRun fetch parse readParse
  if page.content = "" then ⟨[], false, false⟩
  else
    let summary := summarizerRun summarize page.content
    let rating := evaluate model page.title page.content
      "Artificial Intelligence" "Power User"
    ⟨["Title: " ++ page.title] ++
        (if summary = "" then [] else ["Summary: " ++ summary]) ++
        (match rating with
          | none => []
          | some r => ["Rating: " ++ toString r]),
      true, true⟩

/-- C5: when the fetch fails (network error or non-2xx, both mapped to the
empty HTML string), `Scraper.run` returns the empty article and the entry
point performs neither the summarization nor the rating call, whatever the
parsers and models would have done. -/
theorem C5_fetch_failure_short_circuits :
    ∀ (parse readParse : String → Option (List Html))
      (summarize : String → ℤ → ℤ → String) (model : String → ModelOutput),
      scraperRun FetchOutcome.requestError parse readParse =
          ⟨"", ""⟩ ∧
        mainRun FetchOutcome.requestError parse readParse summarize model =
          ⟨[], false, false⟩ := by
  intro parse readParse summarize model
  constructor
  · rfl
  · rfl

/-- C6: title and content extraction are independent failure domains: the
content never depends on the title parser, the title never depends on the
content parser, and a parse failure on either side degrades exactly its own
field to `""`. -/
theorem C6_independent_failure_domains :
    (∀ (p p2 rp : String → Option (List Html)) (f : FetchOutcome),
        (scraperRun f p rp).content = (scraperRun f p2 rp).content) ∧
      (∀ (p rp rp2 : String → Option (List Html)) (f : FetchOutcome),
        (scraperRun f p rp).title = (scraperRun f p rp2).title) ∧
      (∀ (p rp : String → Option (List Html)) (html : String), html ≠ "" →
        p html = none →
        scraperRun (FetchOutcome.ok html) p rp =
          ⟨"", extract_text rp html⟩) ∧
      (∀ (p rp : String → Option (List Html)) (html : String), html ≠ "" →
        rp html = none →
        scraperRun (FetchOutcome.ok html) p rp =
          ⟨extract_title p html, ""⟩) := by
  refine ⟨?_, ?_, ?_, ?_⟩
  · intro p p2 rp f
    by_cases hf : fetch_html f = ""
    · simp [scraperRun, hf]
    · simp [scraperRun, hf]
  · intro p rp rp2 f
    by_cases hf : fetch_html f = ""
    · simp [scraperRun, hf]
    · simp [scraperRun, hf]
  · intro p rp html hne hp
    simp [scraperRun, fetch_html, hne, extract_title, hp]
  · intro p rp html hne hrp
    simp [scraperRun, fetch_html, hne, extract_text, hrp]

/-- Witness for C6: a failing title parse leaves the content extraction
intact and vice versa, on the page `"<page>"`. -/
theorem C6_independent_failure_domains_witness :
    scraperRun (FetchOutcome.ok "<page>") (fun _ => none)
        (fun _ => some [Html.text "body"]) =
      ⟨"", extract_text (fun _ => some [Html.text "body"]) "<page>"⟩ ∧
    scraperRun (FetchOutcome.ok "<page>")
        (fun _ => some [Html.elem "title" [Html.text "t"]]) (fun _ => none) =
      ⟨extract_title (fun _ => some [Html.elem "title" [Html.text "t"]]) "<page>",
        ""⟩ :=
  ⟨C6_independent_failure_domains.2.2.1 _ _ "<page>" (by decide) rfl,
    C6_independent_failure_domains.2.2.2 _ _ "<page>" (by decide) rfl⟩

/-- Decomposing the tagged elements and then collecting text nodes collects
exactly the text nodes that do not lie under a tagged element. -/
lemma textNodesList_stripTagsList (tags : List String) :
    ∀ hs : List Html,
      textNodesList (stripTagsList tags hs) = visibleTextsList tags hs
  | [] => by simp [stripTagsList, textNodesList, visibleTextsList]
  | Html.text s :: hs => by
    simp [stripTagsList, textNodesList, visibleTextsList,
      textNodesList_stripTagsList tags hs]
  | Html.elem t cs :: hs => by
    by_cases ht : t ∈ tags
    · simp [stripTagsList, visibleTextsList, ht,
        textNodesList_stripTagsList tags hs]
    · simp [stripTagsList, textNodesList, visibleTextsList, ht,
        textNodesList_stripTagsList tags cs,
        textNodesList_stripTagsList tags hs]

/-- C7: the extracted content is the visible text nodes — never those under a
`<script>` or `<style>` element — stripped, with the whitespace-only ones
dropped, collapsed into one string with single-space separators; on a
document made of one paragraph, one script block and one style block the
result is exactly the stripped paragraph text, so the script and style text
are excluded verbatim. -/
theorem C7_script_style_excluded :
    (∀ (readParse : String → Option (List Html)) (html : String)
        (doc : List Html), readParse html = some doc →
        extract_text readParse html =
          joinSep " "
            (((visibleTextsList ["script", "style"] doc).map pyStrip).filter
              (fun s => !(s == "")))) ∧
      (∀ (readParse : String → Option (List Html)) (html P S T : String),
        readParse html = some
            [Html.elem "p" [Html.text P], Html.elem "script" [Html.text S],
              Html.elem "style" [Html.text T]] →
        extract_text readParse html = pyStrip P) := by
  constructor
  · intro rp html doc h
    simp [extract_text, h, get_text, textNodesList_stripTagsList]
  · intro rp html P S T h
    by_cases hP : pyStrip P = ""
    · simp [extract_text, h, get_text, stripTagsList, textNodesList, hP, joinSep]
    · simp [extract_text, h, get_text, stripTagsList, textNodesList, hP, joinSep]

/-- Witness for C7: a concrete page with a script and a style block extracts
only the stripped paragraph text. -/
theorem C7_script_style_excluded_witness :
    extract_text
        (fun _ => some
          [Html.elem "p" [Html.text " A visible paragraph. "],
            Html.elem "script" [Html.text "var x = 1;"],
            Html.elem "style" [Html.text "p color red"]]) "<page>" =
      pyStrip " A visible paragraph. " :=
  C7_script_style_excluded.2 _ "<page>" " A visible paragraph. " "var x = 1;"
    "p color red" rfl

/-! ## Device selection (Source/device_config.py)

`DeviceManager` keeps two class-level cache fields.  The hardware probes
(`torch.backends.mps.is_available()`, `torch.cuda.is_available()`) are the
oracle `Hardware`; each classmethod is a function of the probe results and
the current cache state, returning its value and the next state. -/

/-- The three devices the manager can select. -/
inductive TorchDevice where
  | mps
  | cuda
  | cpu
deriving DecidableEq

/-- `torch.device.type` for the modelled devices. -/
def TorchDevice.typeStr : TorchDevice → String
  | TorchDevice.mps => "mps"
  | TorchDevice.cuda => "cuda"
  | TorchDevice.cpu => "cpu"

/-- The availability probes of the two accelerators. -/
structure Hardware where
  mps_available : Bool
  cuda_available : Bool
deriving DecidableEq

/-- The two class-level cache fields of `DeviceManager`. -/
structure DeviceManagerState where
  _device : Option TorchDevice
  _device_string : Option String
deriving DecidableEq

/-- Both cache fields start out `None`. -/
def initialState : DeviceManagerState := ⟨none, none⟩

/-- The probe cascade of the first `get_torch_device` call: MPS, then CUDA,
then CPU. -/
def detectDevice (hw : Hardware) : TorchDevice :=
  if hw.mps_available then TorchDevice.mps
  else if hw.cuda_available then TorchDevice.cuda
  else TorchDevice.cpu

/-- `DeviceManager.get_torch_device()`: return the cached device if set,
otherwise probe, cache and return. -/
def get_torch_device (hw : Hardware) (s : DeviceManagerState) :
    TorchDevice × DeviceManagerState :=
  match s._device with
  | some d => (d, s)
  | none =>
    let d := detectDevice hw
    (d, ⟨some d, s._device_string⟩)

/-- `DeviceManager.get_torch_type()`: return the cached string if set,
otherwise take the (possibly freshly cached) device's type and cache it. -/
def get_torch_type (hw : Hardware) (s : DeviceManagerState) :
    String × DeviceManagerState :=
  match s._device_string with
  | some ds => (ds, s)
  | none =>
    let p := get_torch_device hw s
    (p.1.typeStr, ⟨p.2._device, some p.1.typeStr⟩)

/-- `DeviceManager.override_device()`: the only operation that overwrites the
cache fields once set. -/
def override_device (_s : DeviceManagerState) : DeviceManagerState :=
  ⟨some TorchDevice.cpu, some "cpu"⟩

/-- C8: the device selection is resolved at most once and cached: on the
fresh state the first `get_torch_device` call follows the preference order
MPS, CUDA, CPU; once `_device` (resp. `_device_string`) is set, any later
`get_torch_device` (resp. `get_torch_type`) call returns the cached value
with the state untouched, whatever the probes would now say; and after the
first call both accessors keep answering with that first device. -/
theorem C8_device_selection_cached :
    (∀ hw : Hardware,
        (hw.mps_available = true →
          (get_torch_device hw initialState).1 = TorchDevice.mps) ∧
        (hw.mps_available = false → hw.cuda_available = true →
          (get_torch_device hw initialState).1 = TorchDevice.cuda) ∧
        (hw.mps_available = false → hw.cuda_available = false →
          (get_torch_device hw initialState).1 = TorchDevice.cpu)) ∧
      (∀ (hw2 : Hardware) (s : DeviceManagerState) (d : TorchDevice),
        s._device = some d → get_torch_device hw2 s = (d, s)) ∧
      (∀ (hw2 : Hardware) (s : DeviceManagerState) (ds : String),
        s._device_string = some ds → get_torch_type hw2 s = (ds, s)) ∧
      (∀ hw hw2 : Hardware,
        get_torch_device hw2 (get_torch_device hw initialState).2 =
          ((get_torch_device hw initialState).1,
            (get_torch_device hw initialState).2) ∧
        (get_torch_type hw2 (get_torch_device hw initialState).2).1 =
          ((get_torch_device hw initialState).1).typeStr) := by
  refine ⟨?_, ?_, ?_, ?_⟩
  · intro hw
    refine ⟨fun h1 => ?_, fun h1 h2 => ?_, fun h1 h2 => ?_⟩ <;>
      simp [get_torch_device, initialState, detectDevice, h1]
    · simp [h2]
    · simp [h2]
  · intro hw2 s d h
    simp [get_torch_device, h]
  · intro hw2 s ds h
    simp [get_torch_type, h]
  · intro hw hw2
    constructor
    · simp [get_torch_device, initialState]
    · simp [get_torch_type, get_torch_device, initialState]

/-- Witness for C8 at a CUDA-only machine: the first call selects CUDA and a
call on the cached state returns it unchanged, even if the probes changed. -/
theorem C8_device_selection_cached_witness :
    (get_torch_device ⟨false, true⟩ initialState).1 = TorchDevice.cuda ∧
      get_torch_device ⟨false, false⟩ ⟨some TorchDevice.cuda, none⟩ =
        (TorchDevice.cuda, ⟨some TorchDevice.cuda, none⟩) ∧
      get_torch_type ⟨true, false⟩ ⟨some TorchDevice.cuda, some "cuda"⟩ =
        ("cuda", ⟨some TorchDevice.cuda, some "cuda"⟩) :=
  ⟨(C8_device_selection_cached.1 ⟨false, true⟩).2.1 rfl rfl,
    C8_device_selection_cached.2.1 ⟨false, false⟩
      ⟨some TorchDevice.cuda, none⟩ TorchDevice.cuda rfl,
    C8_device_selection_cached.2.2.1 ⟨true, false⟩
      ⟨some TorchDevice.cuda, some "cuda"⟩ "cuda" rfl⟩

end DigestBot
